import Mathlib

/-!
Verification development for the tick-to-bar aggregation and validation
engine of the `Trading-` repository.

Shallow embedding of:
- `src/app/data/models.py`     (the `Candle` dataclass, `frozen=True`)
- `src/app/data/validation.py` (`validate_candle` and its constants)
- `src/app/data/builder.py`    (`get_candle_boundary`, `CandleBuilder`)
- `src/app/data/historical.py` (`HistoricalDataFetcher`)

Modelling conventions.

Python `datetime` values are modelled by `PyDatetime`: `n` is the naive
wall-clock reading in microseconds counted from 1980-01-01 00:00:00 (the
date used by `EPOCH_CUTOFF` in validation.py, so that constant gets `n = 0`),
and `tz` is `none` for a naive datetime or `some off` for an aware datetime
whose UTC offset is `off` minutes (Asia/Kolkata is the fixed offset +330;
that zone has no DST, and the repository only ever constructs this zone).
Python comparison/subtraction of two aware datetimes acts on the instants
(wall clock minus offset), of two naive datetimes on the wall clock, and
raises `TypeError` on a naive/aware mix; `pyLt`/`pyLe`/`pyGt`/`pyGe`/`pySub`
model exactly that via `Except`.

Python numbers reaching the validator are `int` or `float`; they are
modelled by `PyNum`: finite floats as exact rationals (no claim below
depends on rounding) plus the non-finite float values `nan` and the two
infinities.  `isinstance(x, int)` is `PyNum.isInt`; Python `int(x)` is
`PyNum.pyInt`, which raises `ValueError` on NaN and `OverflowError` on an
infinity exactly as Python does; numeric `<`/`<=`/`>` follow IEEE-754
(`PyNum.lt`, `PyNum.le`, `PyNum.gt`: every comparison with a NaN is false,
the infinities bound every finite value) and never raise.  `PyNum.toRat`
and `PyNum.trunc` read the numeric value and the truncation of a finite
number; on `nan`/`inf` — which carry no such value — they return the
filler 0, and every use is guarded so the filler is never observable: in
`validate_candle` they are applied only after `isinstance(..., int)`
succeeds or after a successful `int(...)`, and hypotheses stated with them
exclude the non-finite values (the filler makes those hypotheses
unsatisfiable on them).

`models.py` declares `Candle` with `@dataclass(frozen=True)`: every field
assignment on a constructed instance raises `dataclasses.FrozenInstanceError`.
The builder's `_update_candle` and `_close_current_candle` perform exactly
such assignments; the embedding therefore returns
`PyErr.frozenInstanceError` at the first assignment statement of those
methods, with every `self.` mutation executed before that point (Python
mutations on the builder object persist when the exception propagates).
-/

deriving instance DecidableEq for Except

/-- Python exceptions that the embedded code can raise. -/
inductive PyErr where
  | frozenInstanceError
  | typeError
  | valueError
  | overflowError
  deriving DecidableEq, Repr

/-- A Python number (`int` or `float`); finite floats carried as exact
rationals, plus the non-finite floats: `nan` is `float("nan")`, and
`inf neg` is `float("-inf")` when `neg` is true, `float("inf")` otherwise. -/
inductive PyNum where
  | int : ℤ → PyNum
  | float : ℚ → PyNum
  | nan : PyNum
  | inf : Bool → PyNum
  deriving DecidableEq, Repr

/-- Numeric value of a finite Python number; `nan` and the infinities
carry no rational value and return the filler 0, never observable (see the
header note). -/
def PyNum.toRat : PyNum → ℚ
  | .int n => (n : ℚ)
  | .float q => q
  | .nan => 0
  | .inf _ => 0

/-- Python `isinstance(x, int)` for a number (floats, NaN and the
infinities included, are not `int`). -/
def PyNum.isInt : PyNum → Bool
  | .int _ => true
  | .float _ => false
  | .nan => false
  | .inf _ => false

/-- Truncation toward zero of a finite Python number — the value of
`int(x)` when it does not raise (the rational is in lowest terms, so
`num.tdiv den` truncates toward zero); filler 0 on `nan`/`inf`, never
observable (see the header note).  The faithful model of `int(x)` itself
is `PyNum.pyInt` below. -/
def PyNum.trunc : PyNum → ℤ
  | .int n => n
  | .float q => q.num.tdiv (q.den : ℤ)
  | .nan => 0
  | .inf _ => 0

/-- Python `int(x)` on a number: identity on `int`, truncation toward zero
on a finite `float`, and a raise on the non-finite floats — `ValueError`
for NaN, `OverflowError` for an infinity. -/
def PyNum.pyInt : PyNum → Except PyErr ℤ
  | .int n => .ok n
  | .float q => .ok (q.num.tdiv (q.den : ℤ))
  | .nan => .error .valueError
  | .inf _ => .error .overflowError

/-- Whether a Python number is finite (`int` or a finite `float`). -/
def PyNum.isFinite : PyNum → Bool
  | .int _ => true
  | .float _ => true
  | .nan => false
  | .inf _ => false

/-- Python numeric `<` between `int`/`float` values, IEEE-754: any
comparison with a NaN is false; `-inf` is below and `inf` above every
finite value; numeric comparisons never raise. -/
def PyNum.lt : PyNum → PyNum → Bool
  | .nan, _ => false
  | _, .nan => false
  | .inf n1, .inf n2 => n1 && !n2
  | .inf n1, _ => n1
  | _, .inf n2 => !n2
  | a, b => decide (a.toRat < b.toRat)

/-- Python numeric `<=`, IEEE-754 (see `PyNum.lt`). -/
def PyNum.le : PyNum → PyNum → Bool
  | .nan, _ => false
  | _, .nan => false
  | .inf n1, .inf n2 => n1 || !n2
  | .inf n1, _ => n1
  | _, .inf n2 => !n2
  | a, b => decide (a.toRat ≤ b.toRat)

/-- Python numeric `>`: `a > b` is `b < a`, also under IEEE-754. -/
def PyNum.gt (a b : PyNum) : Bool :=
  PyNum.lt b a

/-- A Python `datetime`: naive wall-clock microseconds since
1980-01-01 00:00:00 plus an optional fixed UTC offset in minutes. -/
structure PyDatetime where
  n : ℤ
  tz : Option ℤ
  deriving DecidableEq, Repr

/-- Comparison key of a datetime: the instant (wall clock minus UTC offset)
for an aware value, the wall clock itself for a naive one.  Python compares
two aware datetimes by instant and two naive ones by wall clock, so on any
pair of equal awareness this key gives exactly Python's order. -/
def pyKey (t : PyDatetime) : ℤ :=
  t.n - (t.tz.getD 0) * 60000000

/-- Python `datetime.__lt__`: `TypeError` on a naive/aware mix. -/
def pyLt (a b : PyDatetime) : Except PyErr Bool :=
  match a.tz, b.tz with
  | none, none => .ok (decide (pyKey a < pyKey b))
  | some _, some _ => .ok (decide (pyKey a < pyKey b))
  | _, _ => .error .typeError

/-- Python `datetime.__le__`: `TypeError` on a naive/aware mix. -/
def pyLe (a b : PyDatetime) : Except PyErr Bool :=
  match a.tz, b.tz with
  | none, none => .ok (decide (pyKey a ≤ pyKey b))
  | some _, some _ => .ok (decide (pyKey a ≤ pyKey b))
  | _, _ => .error .typeError

/-- Python `datetime.__gt__`: `TypeError` on a naive/aware mix. -/
def pyGt (a b : PyDatetime) : Except PyErr Bool :=
  match a.tz, b.tz with
  | none, none => .ok (decide (pyKey b < pyKey a))
  | some _, some _ => .ok (decide (pyKey b < pyKey a))
  | _, _ => .error .typeError

/-- Python `datetime.__ge__`: `TypeError` on a naive/aware mix. -/
def pyGe (a b : PyDatetime) : Except PyErr Bool :=
  match a.tz, b.tz with
  | none, none => .ok (decide (pyKey b ≤ pyKey a))
  | some _, some _ => .ok (decide (pyKey b ≤ pyKey a))
  | _, _ => .error .typeError

/-- Python `datetime - datetime` as a `timedelta` in microseconds:
instant difference for aware pairs, wall-clock difference for naive pairs,
`TypeError` on a mix. -/
def pySub (a b : PyDatetime) : Except PyErr ℤ :=
  match a.tz, b.tz with
  | none, none => .ok (pyKey a - pyKey b)
  | some _, some _ => .ok (pyKey a - pyKey b)
  | _, _ => .error .typeError

/-- Python `datetime + timedelta(microseconds=d)`: shifts the wall clock,
keeps the `tzinfo` (true for fixed-offset zones such as Asia/Kolkata). -/
def pyAddDelta (t : PyDatetime) (d : ℤ) : PyDatetime :=
  ⟨t.n + d, t.tz⟩

/-- Python `aware.astimezone(zone_with_offset off)`: same instant, new
offset.  The code under verification only calls this on aware values
(builder.py converts after rejecting naive timestamps; historical.py calls
it on parsed broker timestamps); on a naive value Python would interpret the
wall clock in the system zone — the `none` branch here uses the IST system
zone of the deployment and no theorem below depends on it. -/
def pyAstimezone (t : PyDatetime) (off : ℤ) : PyDatetime :=
  match t.tz with
  | some x => ⟨t.n - x * 60000000 + off * 60000000, some off⟩
  | none => ⟨t.n, some off⟩

/-- Python `datetime.time()` measured in microseconds after midnight of the
wall-clock day; Python compares `time` objects by exactly this number. -/
def timeOfDay (t : PyDatetime) : ℤ :=
  t.n % 86400000000

/-- Python `t.replace(minute=a, second=0, microsecond=0)` (date, hour and
`tzinfo` kept); `t.n % 3600000000` is the wall-clock part below the hour. -/
def pyReplaceMinute (t : PyDatetime) (a : ℤ) : PyDatetime :=
  ⟨t.n - t.n % 3600000000 + a * 60000000, t.tz⟩

/-- Python `t.replace(hour=h, minute=m, second=0, microsecond=0)` (date and
`tzinfo` kept). -/
def pyReplaceHourMinute (t : PyDatetime) (h m : ℤ) : PyDatetime :=
  ⟨t.n - t.n % 86400000000 + (h * 3600 + m * 60) * 1000000, t.tz⟩

/-- The fixed Asia/Kolkata UTC offset in minutes (`IST` in the source). -/
def istOffset : ℤ := 330

/-- models.py lines 4-23: the `Candle` dataclass (`frozen=True`), fields in
source order.  `open_time`/`close_time` are declared `datetime`,
prices/volume numeric, `number_of_trades` is carried as a Python number so
the validator's `isinstance(..., int)` check is expressible. -/
structure Candle where
  symbol : String
  timeframe : String
  open_time : PyDatetime
  close_time : PyDatetime
  open_price : PyNum
  high_price : PyNum
  low_price : PyNum
  close_price : PyNum
  volume : PyNum
  number_of_trades : PyNum
  is_closed : Bool
  mode : String
  deriving DecidableEq, Repr

/-- builder.py: `CandleState` enum. -/
inductive CandleState where
  | BUILDING
  | CLOSED
  | EMITTED
  | DROPPED
  deriving DecidableEq, Repr

/-- builder.py lines 30-48: `get_candle_boundary`.  `minute` is the
wall-clock minute-of-hour; `//` is Python floor division (`Int.fdiv`). -/
def get_candle_boundary (tick_time : PyDatetime) (timeframe_seconds : ℤ) : PyDatetime :=
  let minute := (tick_time.n % 3600000000) / 60000000
  let timeframe_minutes := timeframe_seconds.fdiv 60
  let aligned_minute := (minute.fdiv timeframe_minutes) * timeframe_minutes
  pyReplaceMinute tick_time aligned_minute

/-- builder.py: the mutable state of a `CandleBuilder` instance
(`symbol`, `timeframe`, `timeframe_seconds` fixed at construction;
`current_candle`, `state`, `last_tick_time` start as `None`). -/
structure CandleBuilder where
  symbol : String
  timeframe : String
  timeframe_seconds : ℤ
  current_candle : Option Candle
  state : Option CandleState
  last_tick_time : Option PyDatetime
  deriving DecidableEq, Repr

/-- builder.py `CandleBuilder.__init__`. -/
def CandleBuilder.init (symbol timeframe : String) (timeframe_seconds : ℤ) : CandleBuilder :=
  ⟨symbol, timeframe, timeframe_seconds, none, none, none⟩

/-- builder.py lines 221-229: `_is_market_time`.  Both `replace` results
carry `ts.tz`, so the two chained comparisons are between equal-awareness
values and never raise; they reduce to wall-clock comparison. -/
def CandleBuilder.is_market_time (ts : PyDatetime) : Bool :=
  let market_start := pyReplaceHourMinute ts 9 15
  let market_end := pyReplaceHourMinute ts 15 30
  decide (pyKey market_start ≤ pyKey ts) && decide (pyKey ts ≤ pyKey market_end)

/-- builder.py lines 148-171: `_start_new_candle` (a constructor call — the
only way a frozen dataclass instance acquires its field values). -/
def CandleBuilder.start_new_candle (b : CandleBuilder) (price : ℚ) (quantity : ℤ)
    (start_time end_time : PyDatetime) : CandleBuilder :=
  { b with
    current_candle := some
      ⟨b.symbol, b.timeframe, start_time, end_time,
       .float price, .float price, .float price, .float price,
       .int quantity, .int 1, false, "live"⟩,
    state := some .BUILDING }

/-- builder.py lines 108-142: the body of `add_tick` from the watermark
update (`self.last_tick_time = tick_time`) onward, after the ordering gate
has not rejected; split out so both admitting branches share it. -/
def CandleBuilder.add_tick_admitted (b : CandleBuilder) (price : ℚ) (tick_time : PyDatetime)
    (quantity : ℤ) : CandleBuilder × Except PyErr (Option Candle) :=
  let b := { b with last_tick_time := some tick_time }
  -- MARKET HOURS GATE
  if ¬ CandleBuilder.is_market_time tick_time then (b, .ok none)
  else
    let boundary := get_candle_boundary tick_time b.timeframe_seconds
    let candle_end := pyAddDelta boundary (b.timeframe_seconds * 1000000)
    match b.current_candle with
    -- START FIRST CANDLE
    | none => (b.start_new_candle price quantity boundary candle_end, .ok none)
    | some current =>
      match pyLt tick_time current.close_time with
      | .error e => (b, .error e)
      -- UPDATE CURRENT CANDLE: `_update_candle` assigns `candle.high_price`
      -- on the frozen dataclass and raises, unless its guard returns early
      | .ok true =>
        if b.state ≠ some .BUILDING then (b, .ok none)
        else (b, .error .frozenInstanceError)
      -- CLOSE CURRENT CANDLE: `_close_current_candle` assigns
      -- `candle.is_closed` on the frozen dataclass and raises before any
      -- other statement, so validation and the restart are never reached
      | .ok false => (b, .error .frozenInstanceError)
/-- builder.py lines 76-142: `add_tick`.  Returns the builder object's state
after the call together with the call's outcome (`.ok` result or a raised
exception; `self.` mutations performed before a raise persist).

The two paths that in the source call `_update_candle` (lines 172-181) and
`_close_current_candle` (lines 183-218) raise `FrozenInstanceError`:
`_update_candle` first executes `candle.high_price = max(...)` and
`_close_current_candle` first executes `candle.is_closed = True`, and both
are field assignments on the `frozen=True` dataclass, reached before any
other `self.` mutation of those methods (in `_update_candle` after its
`current_candle is None or state != BUILDING` early return). -/
def CandleBuilder.add_tick (b : CandleBuilder) (price : ℚ) (tick_time : PyDatetime)
    (quantity : ℤ) : CandleBuilder × Except PyErr (Option Candle) :=
  -- TIMEZONE ENFORCEMENT
  match tick_time.tz with
  | none => (b, .ok none)
  | some _ =>
    let tick_time := if tick_time.tz ≠ some istOffset then pyAstimezone tick_time istOffset else tick_time
    -- ORDERING DEFENSE
    match b.last_tick_time with
    | some last =>
      match pyLt tick_time last with
      | .error e => (b, .error e)
      | .ok true => (b, .ok none)
      | .ok false => CandleBuilder.add_tick_admitted b price tick_time quantity
    | none => CandleBuilder.add_tick_admitted b price tick_time quantity


/-- validation.py: `MARKET_START = time(9, 15)` as microseconds after
midnight. -/
def MARKET_START : ℤ := 33300000000

/-- validation.py: `MARKET_END = time(15, 30)` as microseconds after
midnight. -/
def MARKET_END : ℤ := 55800000000

/-- validation.py: `ALLOWED_TIMEFRAMES`, each timeframe mapped to its
`timedelta` in microseconds; `none` models `not in`. -/
def ALLOWED_TIMEFRAMES : String → Option ℤ
  | "FIFTEEN_MINUTE" => some 900000000
  | "ONE_MINUTE" => some 60000000
  | "THREE_MINUTE" => some 180000000
  | "FIVE_MINUTE" => some 300000000
  | "TEN_MINUTE" => some 600000000
  | _ => none

/-- validation.py: `MIN_VOLUME = 1`. -/
def MIN_VOLUME : ℤ := 1

/-- validation.py: `MIN_N0_OF_TRADES = 1`. -/
def MIN_N0_OF_TRADES : ℤ := 1

/-- validation.py: `FUTURE_TIME_TOLERANCE_SECONDS = 60`. -/
def FUTURE_TIME_TOLERANCE_SECONDS : ℤ := 60

/-- validation.py: `EPOCH_CUTOFF = datetime(1980, 1, 1, tzinfo=ZoneInfo("Asia/Kolkata"))`;
with the 1980-01-01 origin of `PyDatetime.n` its wall clock reads 0. -/
def EPOCH_CUTOFF : PyDatetime := ⟨0, some istOffset⟩

/-- validation.py lines 37-147: `validate_candle`.  `ist_now` is the value
`datetime.now(IST)` read during the call (an IST-aware datetime).  Early
`return`s mirror the source; `(← ...)` propagates a `TypeError` from a
naive/aware comparison exactly where Python would raise it.  The
`isinstance(open_time, datetime)`/`isinstance(close_time, datetime)` guard
holds by the typing of this model (both fields are `PyDatetime`), and the
`isinstance` guards on prices and volume hold because `PyNum` is exactly
`int | float` (NaN and the infinities are floats); those guards' reject
branches are unreachable here.  `int(candle.volume)` is evaluated twice as
in the source and raises on a non-finite volume. -/
def validate_candle (candle : Candle) (ist_now : PyDatetime) : Except PyErr (Bool × Option String) := do
  -- 1. Candle Finality
  if !candle.is_closed then return (false, some "CANDLE_NOT_CLOSED")
  -- 2. Timeframe Validity
  let some expected_duration := ALLOWED_TIMEFRAMES candle.timeframe
    | return (false, some "UNSUPPORTED_TIMEFRAME")
  -- 3. Timestamp Sanity
  if candle.open_time.tz = none ∨ candle.close_time.tz = none then
    return (false, some "TIMESTAMP_NO_TIMEZONE")
  if (← pyLt candle.open_time EPOCH_CUTOFF) then return (false, some "TIMESTAMP_CORRUPT")
  if (← pyLt candle.close_time EPOCH_CUTOFF) then return (false, some "TIMESTAMP_CORRUPT")
  if (← pyGt candle.open_time (pyAddDelta ist_now (FUTURE_TIME_TOLERANCE_SECONDS * 1000000))) then
    return (false, some "TIMESTAMP_IN_FUTURE")
  -- 4. Time Integrity
  if (← pyGe candle.open_time candle.close_time) then return (false, some "INVALID_TIME_RANGE")
  if (← pySub candle.close_time candle.open_time) ≠ expected_duration then
    return (false, some "TIMEFRAME_MISMATCH")
  -- Market hours rule: candle must END by 15:30, start-time can be earlier
  if timeOfDay candle.close_time > MARKET_END then
    return (false, some "MARKET_HOURS_VIOLATION")
  if timeOfDay candle.open_time < MARKET_START ∧ timeOfDay candle.close_time ≤ MARKET_START then
    return (false, some "MARKET_HOURS_VIOLATION")
  -- 5. Price Type + Positivity (the isinstance arm cannot fire on PyNum;
  -- `<=` on floats is IEEE-754, so a NaN price compares false and passes)
  if candle.open_price.le (.int 0) then return (false, some "NON_POSITIVE_PRICE")
  if candle.high_price.le (.int 0) then return (false, some "NON_POSITIVE_PRICE")
  if candle.low_price.le (.int 0) then return (false, some "NON_POSITIVE_PRICE")
  if candle.close_price.le (.int 0) then return (false, some "NON_POSITIVE_PRICE")
  -- 6. OHLC Structural Consistency (IEEE-754 comparisons, never raising)
  if candle.high_price.lt candle.low_price then return (false, some "INVALID_OHLC")
  if candle.high_price.lt candle.open_price then return (false, some "INVALID_OHLC")
  if candle.high_price.lt candle.close_price then return (false, some "INVALID_OHLC")
  if candle.low_price.gt candle.open_price then return (false, some "INVALID_OHLC")
  if candle.low_price.gt candle.close_price then return (false, some "INVALID_OHLC")
  -- 7. Activity Existence & Completeness (volume isinstance arm cannot
  -- fire; `int(candle.volume)` raises ValueError on NaN and OverflowError
  -- on an infinity, and that exception propagates out of the call)
  let vol_int ← candle.volume.pyInt
  if candle.volume.toRat ≠ (vol_int : ℚ) then return (false, some "VOLUME_NOT_INTEGER")
  if (← candle.volume.pyInt) < MIN_VOLUME then return (false, some "VOLUME_ZERO")
  if !candle.number_of_trades.isInt then return (false, some "NO_OF_TRADES_NOT_INTEGER")
  if candle.mode = "live" then
    if candle.number_of_trades.toRat ≤ 0 ∨ candle.number_of_trades.toRat < (MIN_N0_OF_TRADES : ℚ) then
      return (false, some "NO_OF_TRADES_ZERO or BELOW MINIMUM")
  -- PASSED ALL PHASE-1 CHECKS
  return (true, none)

/-- Wall-clock microseconds of midnight of an arbitrary trading day
(`d` days after 1980-01-01), used to build concrete instants. -/
def dayStart (d : ℤ) : ℤ := d * 86400000000

/-- An IST-aware instant on day `d` at `tod` microseconds after midnight. -/
def istAt (d tod : ℤ) : PyDatetime := ⟨dayStart d + tod, some istOffset⟩

/-- Builder state after one admitted tick (price 100, quantity 5) at
09:16:00 IST on day 17001, on a fresh 15-minute builder. -/
def c1builder : CandleBuilder :=
  ((CandleBuilder.init "RELIANCE" "FIFTEEN_MINUTE" 900).add_tick 100 (istAt 17001 33360000000) 5).1

/-- C1: `add_tick` is claimed never to raise, but feeding a second
timezone-aware in-session tick (price 101, quantity 3, 09:17:00 IST) into
the same 15-minute window makes `_update_candle` assign
`candle.high_price` on the `frozen=True` dataclass: the call raises
`dataclasses.FrozenInstanceError` instead of returning a bar or `None`. -/
theorem add_tick_second_tick_raises_frozen_error :
    (c1builder.add_tick 101 (istAt 17001 33420000000) 3).2 =
      .error .frozenInstanceError := by decide

/-- Builder state after one admitted tick (price 100, quantity 5) at
09:16:00 IST on day 17002, on a fresh 15-minute builder. -/
def c2builder : CandleBuilder :=
  ((CandleBuilder.init "TCS" "FIFTEEN_MINUTE" 900).add_tick 100 (istAt 17002 33360000000) 5).1

/-- C2: a second admitted tick (price 101, quantity 3, 09:17:00 IST) with
timestamp strictly inside the open bar's window is claimed to return `None`
and update high/low/close/volume/trade-count in place; instead the call
raises `FrozenInstanceError` and the in-progress bar keeps all its seeded
values (only the watermark was advanced before the raise). -/
theorem add_tick_in_window_update_raises_instead_of_updating :
    (c2builder.add_tick 101 (istAt 17002 33420000000) 3).2 =
        .error .frozenInstanceError ∧
      (c2builder.add_tick 101 (istAt 17002 33420000000) 3).1.current_candle =
        c2builder.current_candle ∧
      (c2builder.current_candle.map Candle.high_price) = some (.float 100) ∧
      (c2builder.current_candle.map Candle.volume) = some (.int 5) := by decide

/-- Builder state after one admitted tick (price 100, quantity 5) at
09:16:00 IST on day 17004, on a fresh 15-minute builder; its in-progress
bar's window is [09:15, 09:30). -/
def c4builder : CandleBuilder :=
  ((CandleBuilder.init "HDFCBANK" "FIFTEEN_MINUTE" 900).add_tick 100 (istAt 17004 33360000000) 5).1

/-- C4: the next admitted tick at exactly `close_time` (09:30:00 IST) is
claimed to close the bar (validate, emit or drop) and immediately start a
new bar seeded with this tick; instead `_close_current_candle` raises
`FrozenInstanceError` at `candle.is_closed = True`, so nothing is validated
or emitted, no new bar is started, and the stale bar stays in place. -/
theorem add_tick_boundary_tick_raises_instead_of_closing :
    (c4builder.add_tick 102 (istAt 17004 34200000000) 1).2 =
        .error .frozenInstanceError ∧
      (c4builder.add_tick 102 (istAt 17004 34200000000) 1).1.current_candle =
        c4builder.current_candle ∧
      (c4builder.add_tick 102 (istAt 17004 34200000000) 1).1.state =
        some .BUILDING := by decide

/-- A structurally valid closed live candle [10:00, 10:15) IST on day
17006. -/
def c6candle : Candle :=
  ⟨"X", "FIFTEEN_MINUTE", istAt 17006 36000000000, istAt 17006 36900000000,
   .float 100, .float 110, .float 90, .float 105, .int 10, .int 2, true, "live"⟩

/-- C6: `validate_candle` is claimed to be a pure function of its input
candle, but it reads the wall clock (`datetime.now(IST)`): validating the
identical candle with the clock one day before its window and with the
clock inside its day returns different results (`TIMESTAMP_IN_FUTURE`
versus acceptance). -/
theorem validate_candle_result_depends_on_clock :
    validate_candle c6candle (istAt 17005 36000000000) ≠
      validate_candle c6candle (istAt 17006 50000000000) := by decide

/-- A closed historical candle [10:00, 10:15) IST on day 17007 whose
`number_of_trades` is the negative integer -5 and whose other fields are
valid. -/
def c7candle : Candle :=
  ⟨"Y", "FIFTEEN_MINUTE", istAt 17007 36000000000, istAt 17007 36900000000,
   .float 100, .float 110, .float 90, .float 105, .int 10, .int (-5), true, "historical"⟩

/-- C7: the claim says every candle whose trade count is not a non-negative
integer is rejected; but for `mode = "historical"` the code only checks
`isinstance(..., int)`, so a candle with `number_of_trades = -5` passes
validation. -/
theorem validate_candle_accepts_negative_trades_historical :
    c7candle.number_of_trades = .int (-5) ∧
      validate_candle c7candle (istAt 17007 50000000000) = .ok (true, none) := by
  exact ⟨rfl, by decide⟩

/-- Every exit of the admitted-tick path leaves the watermark set to the
admitted tick (builder.py line 108: `self.last_tick_time = tick_time` runs
before the market gate, the bar logic, and any raise). -/
theorem add_tick_admitted_sets_watermark (b : CandleBuilder) (p : ℚ) (t : PyDatetime) (q : ℤ) :
    (CandleBuilder.add_tick_admitted b p t q).1.last_tick_time = some t := by
  unfold CandleBuilder.add_tick_admitted
  dsimp only
  repeat' split
  all_goals simp [CandleBuilder.start_new_candle]

/-- The admitted-tick path overwrites the watermark before reading any
state, so the watermark it starts from is irrelevant. -/
theorem add_tick_admitted_ignores_old_watermark (b : CandleBuilder) (x : Option PyDatetime)
    (p : ℚ) (t : PyDatetime) (q : ℤ) :
    CandleBuilder.add_tick_admitted { b with last_tick_time := x } p t q =
      CandleBuilder.add_tick_admitted b p t q := rfl

/-- C3: ordering defense of `add_tick`, for a timezone-aware tick `t` and a
stored IST-aware watermark `w` (every stored watermark is the IST
conversion of an admitted tick): a tick strictly before the watermark is
rejected with no state change at all; a tick at or after the watermark
always advances the watermark to (the IST conversion of, hence the same
instant as) its timestamp, on every path — including a subsequent
market-hours rejection or a raise; and a tick exactly at the watermark is
processed exactly as if no watermark existed, i.e. it is admitted. -/
theorem add_tick_ordering_defense (b : CandleBuilder) (p : ℚ) (q : ℤ) (t w : PyDatetime)
    (zt : ℤ) (htz : t.tz = some zt) (hw : b.last_tick_time = some w)
    (hwtz : w.tz = some istOffset) :
    (pyKey t < pyKey w → b.add_tick p t q = (b, .ok none)) ∧
      (pyKey w ≤ pyKey t →
        ∃ t', (b.add_tick p t q).1.last_tick_time = some t' ∧
          t'.tz = some istOffset ∧ pyKey t' = pyKey t) ∧
      (pyKey t = pyKey w →
        b.add_tick p t q = CandleBuilder.add_tick { b with last_tick_time := none } p t q) := by
  have htz' : (if (some zt : Option ℤ) ≠ some istOffset then pyAstimezone t istOffset else t).tz
      = some istOffset := by
    split
    · simp [pyAstimezone, htz]
    · next h => rw [htz]; exact of_not_not h
  have hkey : pyKey (if (some zt : Option ℤ) ≠ some istOffset then pyAstimezone t istOffset else t)
      = pyKey t := by
    split
    · simp [pyAstimezone, htz, pyKey]
    · rfl
  have hlt : pyLt (if (some zt : Option ℤ) ≠ some istOffset then pyAstimezone t istOffset else t) w
      = .ok (decide
          (pyKey (if (some zt : Option ℤ) ≠ some istOffset then pyAstimezone t istOffset else t)
            < pyKey w)) := by
    unfold pyLt
    rw [hwtz]
    rcases h : (if (some zt : Option ℤ) ≠ some istOffset then pyAstimezone t istOffset else t).tz
      with _ | z
    · rw [h] at htz'; exact absurd htz' (by simp)
    · rfl
  refine ⟨?_, ?_, ?_⟩
  · intro hord
    have hord' : (pyKey (if (some zt : Option ℤ) ≠ some istOffset then pyAstimezone t istOffset
        else t) < pyKey w) := by rw [hkey]; exact hord
    simp only [CandleBuilder.add_tick, htz, hw, hlt, hord', decide_True]
  · intro hord
    have hord' : ¬ (pyKey (if (some zt : Option ℤ) ≠ some istOffset then pyAstimezone t istOffset
        else t) < pyKey w) := by rw [hkey]; omega
    refine ⟨_, ?_, htz', hkey⟩
    simp only [CandleBuilder.add_tick, htz, hw, hlt, hord', decide_False]
    exact add_tick_admitted_sets_watermark b p _ q
  · intro hord
    have hord' : ¬ (pyKey (if (some zt : Option ℤ) ≠ some istOffset then pyAstimezone t istOffset
        else t) < pyKey w) := by rw [hkey]; omega
    simp only [CandleBuilder.add_tick, htz, hw, hlt, hord', decide_False]
    exact (add_tick_admitted_ignores_old_watermark b none p _ q).symm

/-- A builder holding a 10:00:00 IST watermark on day 17003. -/
def c3builder : CandleBuilder :=
  ⟨"INFY", "FIFTEEN_MINUTE", 900, none, none, some (istAt 17003 36000000000)⟩

/-- Witness for the ordering-defense theorem: a 09:59:00 IST tick, strictly
before the stored 10:00:00 watermark, is rejected with no state change. -/
theorem add_tick_ordering_defense_witness :
    c3builder.add_tick 100 (istAt 17003 35940000000) 1 = (c3builder, .ok none) := by
  have h := add_tick_ordering_defense c3builder 100 1 (istAt 17003 35940000000)
    (istAt 17003 36000000000) istOffset rfl rfl rfl
  exact h.1 (by decide)

/-- On operands of equal awareness, Python `<=` on datetimes is total and
compares the keys. -/
theorem pyLe_same_tz (x y : PyDatetime) (h : x.tz = y.tz) :
    pyLe x y = .ok (decide (pyKey x ≤ pyKey y)) := by
  unfold pyLe
  rcases hx : x.tz with _ | u <;> rcases hy : y.tz with _ | v
  · rfl
  · rw [hx, hy] at h; cases h
  · rw [hx, hy] at h; cases h
  · rfl

/-- On operands of equal awareness, Python `<` on datetimes is total and
compares the keys. -/
theorem pyLt_same_tz (x y : PyDatetime) (h : x.tz = y.tz) :
    pyLt x y = .ok (decide (pyKey x < pyKey y)) := by
  unfold pyLt
  rcases hx : x.tz with _ | u <;> rcases hy : y.tz with _ | v
  · rfl
  · rw [hx, hy] at h; cases h
  · rw [hx, hy] at h; cases h
  · rfl

/-- C5: for every timestamp and every granularity `G` seconds that is a
whole number of minutes dividing the hour (`G/60` evenly divides 60, the
spec's 1/3/5/10/15/30-minute bars), the aligned boundary satisfies
`boundary(t) <= t < boundary(t) + G seconds` — the comparisons being
Python's own datetime comparisons, and the upper end the builder's
`boundary + timedelta(seconds=G)` — and alignment is idempotent. -/
theorem get_candle_boundary_window_idempotent (t : PyDatetime) (G : ℕ)
    (h60 : 60 ∣ G) (hdvd : G / 60 ∣ 60) :
    pyLe (get_candle_boundary t (G : ℤ)) t = .ok true ∧
      pyLt t (pyAddDelta (get_candle_boundary t (G : ℤ)) ((G : ℤ) * 1000000)) = .ok true ∧
      get_candle_boundary (get_candle_boundary t (G : ℤ)) (G : ℤ) =
        get_candle_boundary t (G : ℤ) := by
  obtain ⟨k, hks⟩ := h60
  have hk0 : 0 < k := by
    rcases Nat.eq_zero_or_pos k with h | h
    · rw [hks, h] at hdvd
      norm_num at hdvd
    · exact h
  have hGZ : (G : ℤ) = 60 * (k : ℤ) := by exact_mod_cast hks
  have hkZ : (0 : ℤ) < (k : ℤ) := by exact_mod_cast hk0
  have htm : ((G : ℤ)).fdiv 60 = (k : ℤ) := by
    rw [hGZ, Int.fdiv_eq_ediv _ (by norm_num), Int.mul_ediv_cancel_left _ (by norm_num)]
  obtain ⟨A, hA⟩ : ∃ A, (t.n % 3600000000 / 60000000) / (k : ℤ) * (k : ℤ) = A := ⟨_, rfl⟩
  have ham : A ≤ t.n % 3600000000 / 60000000 := by
    rw [← hA]; exact Int.ediv_mul_le _ (by omega)
  have hma : t.n % 3600000000 / 60000000 < A + (k : ℤ) := by
    rw [← hA]
    have h2 := Int.lt_ediv_add_one_mul_self (t.n % 3600000000 / 60000000) hkZ
    rw [add_mul, one_mul] at h2
    exact h2
  have ha0 : 0 ≤ A := by
    rw [← hA]
    exact mul_nonneg (Int.ediv_nonneg (Int.ediv_nonneg
      (Int.emod_nonneg _ (by norm_num)) (by norm_num)) (by omega)) (by omega)
  have hak : (k : ℤ) ∣ A := by rw [← hA]; exact dvd_mul_left _ _
  have hB : get_candle_boundary t (G : ℤ) =
      ⟨t.n - t.n % 3600000000 + A * 60000000, t.tz⟩ := by
    simp only [get_candle_boundary, pyReplaceMinute, htm,
      Int.fdiv_eq_ediv _ (le_of_lt hkZ), hA]
  refine ⟨?_, ?_, ?_⟩
  · rw [hB, pyLe_same_tz ⟨t.n - t.n % 3600000000 + A * 60000000, t.tz⟩ t rfl]
    have hle : pyKey ⟨t.n - t.n % 3600000000 + A * 60000000, t.tz⟩ ≤ pyKey t := by
      unfold pyKey
      dsimp only
      generalize t.tz.getD 0 = c
      omega
    simp [hle]
  · rw [hB]
    have hlt : pyKey t <
        pyKey (pyAddDelta ⟨t.n - t.n % 3600000000 + A * 60000000, t.tz⟩ ((G : ℤ) * 1000000)) := by
      unfold pyAddDelta pyKey
      dsimp only
      generalize t.tz.getD 0 = c
      rw [hGZ]
      omega
    rw [pyLt_same_tz t (pyAddDelta ⟨t.n - t.n % 3600000000 + A * 60000000, t.tz⟩
      ((G : ℤ) * 1000000)) rfl]
    simp [hlt]
  · rw [hB]
    have hXdiv : (t.n - t.n % 3600000000 + A * 60000000) % 3600000000 / 60000000 = A := by
      omega
    have hXmod : (t.n - t.n % 3600000000 + A * 60000000) % 3600000000 = A * 60000000 := by
      omega
    simp only [get_candle_boundary, pyReplaceMinute, htm,
      Int.fdiv_eq_ediv _ (le_of_lt hkZ)]
    rw [hXdiv, Int.ediv_mul_cancel hak]
    simp only [PyDatetime.mk.injEq]
    constructor
    · omega
    · trivial

/-- Witness for the boundary theorem at a concrete input: 09:17:42 IST on
day 17005 with 15-minute granularity (900 s). -/
theorem get_candle_boundary_window_idempotent_witness :
    pyLe (get_candle_boundary (istAt 17005 33462000000) (900 : ℤ)) (istAt 17005 33462000000)
        = .ok true ∧
      pyLt (istAt 17005 33462000000)
        (pyAddDelta (get_candle_boundary (istAt 17005 33462000000) (900 : ℤ))
          ((900 : ℤ) * 1000000)) = .ok true ∧
      get_candle_boundary (get_candle_boundary (istAt 17005 33462000000) (900 : ℤ)) (900 : ℤ) =
        get_candle_boundary (istAt 17005 33462000000) (900 : ℤ) := by
  have h := get_candle_boundary_window_idempotent (istAt 17005 33462000000) 900
    (by norm_num) (by norm_num)
  exact_mod_cast h

/-- Bind on `Except` consumes an `ok` value. -/
theorem except_ok_bind {e a b : Type} (x : a) (f : a → Except e b) :
    (Except.ok x >>= f : Except e b) = f x := rfl

/-- `pure` on `Except` is `ok`. -/
theorem except_pure_eq {e a : Type} (x : a) : (pure x : Except e a) = Except.ok x := rfl

/-- An if-expression whose branches both evaluate to `ok` evaluates to
`ok`. -/
theorem exists_ok_ite_both {e a : Type} (P : Prop) [Decidable P] (x y : Except e a)
    (hx : ∃ r, x = .ok r) (hy : ∃ r, y = .ok r) :
    ∃ r, (if P then x else y) = .ok r := by
  by_cases hp : P
  · obtain ⟨r, hr⟩ := hx
    exact ⟨r, by rw [if_pos hp]; exact hr⟩
  · obtain ⟨r, hr⟩ := hy
    exact ⟨r, by rw [if_neg hp]; exact hr⟩

/-- An if-expression whose condition holds and whose then-branch evaluates
to `ok` evaluates to `ok`. -/
theorem exists_ok_ite_left {e a : Type} (P : Prop) [Decidable P] (hP : P) (x y : Except e a)
    (hx : ∃ r, x = .ok r) : ∃ r, (if P then x else y) = .ok r := by
  rw [if_pos hP]; exact hx

/-- A candle with `volume = float("nan")` whose every other field is
valid (closed, allowed timeframe, aware in-session window on day 17010,
positive consistent prices, live with two trades). -/
def c10nanCandle : Candle :=
  ⟨"Z", "FIFTEEN_MINUTE", istAt 17010 36000000000, istAt 17010 36900000000,
   .float 100, .float 110, .float 90, .float 105, .nan, .int 2, true, "live"⟩

/-- The same candle with `volume = float("inf")`. -/
def c10infCandle : Candle :=
  ⟨"Z", "FIFTEEN_MINUTE", istAt 17010 36000000000, istAt 17010 36900000000,
   .float 100, .float 110, .float 90, .float 105, .inf false, .int 2, true, "live"⟩

/-- C10: `validate_candle` is claimed total over the declared field types,
but `volume` is declared `float` and a non-finite volume reaches
`int(candle.volume)` (every earlier check passes — `isinstance` accepts
NaN/inf as floats), where Python raises `ValueError` for NaN and
`OverflowError` for an infinity; the exception propagates out of the
call. -/
theorem validate_candle_raises_on_nonfinite_volume :
    validate_candle c10nanCandle (istAt 17010 50000000000) = .error .valueError ∧
      validate_candle c10infCandle (istAt 17010 50000000000) = .error .overflowError := by
  decide

/-- C10 (amended): `validate_candle` is total for every candle of the
declared field shapes whose volume is finite — times naive or aware with
any offset, any timeframe and mode strings, any numeric prices and trade
counts (NaN and infinite prices included: numeric comparisons never
raise), with an aware clock reading (`datetime.now(IST)` always is): the
call returns a `(bool, optional reason)` pair and never propagates an
exception, the timezone-presence check returning before any
naive-vs-aware comparison can be evaluated.  The one exception escape is
the counterexample's: `int(candle.volume)` on a non-finite volume. -/
theorem validate_candle_total_on_finite_volume (c : Candle) (now : PyDatetime)
    (hnow : now.tz = some istOffset) (hvol : c.volume.isFinite = true) :
    ∃ r, validate_candle c now = .ok r := by
  obtain ⟨vi, hvi⟩ : ∃ vi, c.volume.pyInt = .ok vi := by
    revert hvol
    cases c.volume with
    | int n => exact fun _ => ⟨n, rfl⟩
    | float q => exact fun _ => ⟨_, rfl⟩
    | nan => intro h; simp [PyNum.isFinite] at h
    | inf ng => intro h; simp [PyNum.isFinite] at h
  rcases hoc : c.open_time.tz with _ | zo <;> rcases hcc : c.close_time.tz with _ | zc
  case some.some =>
    simp only [validate_candle, pyLt, pyGt, pyGe, pySub, pyAddDelta, hoc, hcc, hnow,
      EPOCH_CUTOFF, istOffset, hvi, except_ok_bind, except_pure_eq, decide_eq_true_eq]
    rcases ALLOWED_TIMEFRAMES c.timeframe with _ | d
    all_goals
      repeat
        first
          | exact ⟨_, rfl⟩
          | apply exists_ok_ite_both
  all_goals
    unfold validate_candle
    apply exists_ok_ite_both _ _ _ ⟨_, rfl⟩
    rcases ALLOWED_TIMEFRAMES c.timeframe with _ | d
    all_goals
      first
        | exact ⟨_, rfl⟩
        | (apply exists_ok_ite_left _ (by simp [hoc, hcc])
           exact ⟨_, rfl⟩)

/-- A deliberately ill-formed candle with finite volume: naive `open_time`,
aware `close_time` in another zone, unknown timeframe string, NaN and
negative prices, fractional volume, float trade count, odd mode string. -/
def c10candle : Candle :=
  ⟨"Z", "TWO_HOUR", ⟨123456, none⟩, ⟨99, some 60⟩,
   .nan, .float (-5), .float 7, .inf true,
   .float (7 / 2), .float 1, true, "weird"⟩

/-- Witness: totality on finite volume evaluated on the ill-formed candle
at a concrete IST clock. -/
theorem validate_candle_total_on_finite_volume_witness :
    (istAt 17010 50000000000).tz = some istOffset ∧ c10candle.volume.isFinite = true ∧
      ∃ r, validate_candle c10candle (istAt 17010 50000000000) = .ok r :=
  ⟨rfl, rfl, validate_candle_total_on_finite_volume c10candle (istAt 17010 50000000000) rfl rfl⟩

/-- C6 (amended): `validate_candle` never mutates its input (it is a
function), and its result depends on the wall clock only through the single
clock-skew comparison `open_time > now + 60s`: two calls on the same candle
whose clock readings resolve that comparison identically return identical
results. -/
theorem validate_candle_clock_dependence_only_future_check (c : Candle) (n1 n2 : PyDatetime)
    (hfut : pyGt c.open_time (pyAddDelta n1 (FUTURE_TIME_TOLERANCE_SECONDS * 1000000)) =
      pyGt c.open_time (pyAddDelta n2 (FUTURE_TIME_TOLERANCE_SECONDS * 1000000))) :
    validate_candle c n1 = validate_candle c n2 := by
  simp only [validate_candle]
  rw [hfut]

/-- Witness: the amended determinism applied to the concrete candle of the
counterexample and two clock readings inside its trading day. -/
theorem validate_candle_clock_dependence_witness :
    validate_candle c6candle (istAt 17006 40000000000) =
      validate_candle c6candle (istAt 17006 50000000000) :=
  validate_candle_clock_dependence_only_future_check c6candle
    (istAt 17006 40000000000) (istAt 17006 50000000000) (by decide)

/-- An if-expression differs from `v` when both branches differ from `v`. -/
theorem ite_ne_of_branches {e a : Type} (P : Prop) [Decidable P] (x y v : Except e a)
    (hx : x ≠ v) (hy : y ≠ v) : (if P then x else y) ≠ v := by
  by_cases hp : P
  · rw [if_pos hp]; exact hx
  · rw [if_neg hp]; exact hy

/-- A bound computation differs from `ok v` when the continuation always
does (the error case yields an `error`, never `ok v`). -/
theorem except_bind_ne_ok {e a b : Type} (x : Except e a) (f : a → Except e b) (v : b)
    (hf : ∀ y, f y ≠ .ok v) : (x >>= f) ≠ .ok v := by
  cases x with
  | ok y => exact hf y
  | error err => exact fun h => Except.noConfusion h

/-- The timezone of `EPOCH_CUTOFF`. -/
theorem EPOCH_CUTOFF_tz : EPOCH_CUTOFF.tz = some istOffset := rfl

/-- Adding a `timedelta` keeps the timezone. -/
theorem pyAddDelta_tz (t : PyDatetime) (d : ℤ) : (pyAddDelta t d).tz = t.tz := rfl

/-- C8: session-edge policy of `validate_candle`.  For a candle that reaches
the market-hours checks (closed, allowed timeframe, aware timestamps at or
after the epoch cutoff, not in the future, positive exact duration), the
validator returns the market-hours rejection exactly when the close
time-of-day exceeds 15:30 or the whole window lies at or before 09:15
(open before 09:15 and close not past 09:15); consequently a candle whose
open precedes session start but whose close lies inside the session is not
rejected by the market-hours rule. -/
theorem validate_candle_session_edge (c : Candle) (now : PyDatetime) (d zo zc : ℤ)
    (h1 : c.is_closed = true)
    (hA : ALLOWED_TIMEFRAMES c.timeframe = some d)
    (hoc : c.open_time.tz = some zo) (hcc : c.close_time.tz = some zc)
    (hnow : now.tz = some istOffset)
    (hepo : ¬ (pyKey c.open_time < pyKey EPOCH_CUTOFF))
    (hepc : ¬ (pyKey c.close_time < pyKey EPOCH_CUTOFF))
    (hfut : ¬ (pyKey (pyAddDelta now (FUTURE_TIME_TOLERANCE_SECONDS * 1000000)) <
      pyKey c.open_time))
    (hrange : pyKey c.open_time < pyKey c.close_time)
    (hdur : pyKey c.close_time - pyKey c.open_time = d) :
    (validate_candle c now = .ok (false, some "MARKET_HOURS_VIOLATION") ↔
        (MARKET_END < timeOfDay c.close_time ∨
          (timeOfDay c.open_time < MARKET_START ∧ timeOfDay c.close_time ≤ MARKET_START))) ∧
      (timeOfDay c.open_time < MARKET_START → MARKET_START < timeOfDay c.close_time →
        timeOfDay c.close_time ≤ MARKET_END →
        validate_candle c now ≠ .ok (false, some "MARKET_HOURS_VIOLATION")) := by
  simp only [validate_candle, pyLt, pyGt, pyGe, pySub, hoc, hcc, hA, hnow, EPOCH_CUTOFF_tz,
    pyAddDelta_tz, except_ok_bind, except_pure_eq, decide_eq_true_eq, Bool.not_eq_true']
  rw [if_neg (by simp [h1]), if_neg (by simp), if_neg hepo, if_neg hepc, if_neg hfut,
    if_neg (by omega), if_neg (fun hh => hh hdur)]
  constructor
  · constructor
    · intro h
      by_cases hc1 : MARKET_END < timeOfDay c.close_time
      · exact Or.inl hc1
      · rw [if_neg hc1] at h
        by_cases hc2 : timeOfDay c.open_time < MARKET_START ∧
          timeOfDay c.close_time ≤ MARKET_START
        · exact Or.inr hc2
        · rw [if_neg hc2] at h
          exact absurd h (by
            repeat
              first
                | apply ite_ne_of_branches
                | (apply except_bind_ne_ok; intro vi)
                | decide)
    · intro h
      rcases h with h | h
      · rw [if_pos h]
      · by_cases hc1 : MARKET_END < timeOfDay c.close_time
        · rw [if_pos hc1]
        · rw [if_neg hc1, if_pos h]
  · intro ho hs he
    rw [if_neg (by omega), if_neg (by omega)]
    repeat
      first
        | apply ite_ne_of_branches
        | (apply except_bind_ne_ok; intro vi)
        | decide

/-- A live candle [09:05, 09:20) IST on day 17008: its open precedes the
09:15 session start but its close lies inside the session. -/
def c8candle : Candle :=
  ⟨"W", "FIFTEEN_MINUTE", istAt 17008 32700000000, istAt 17008 33600000000,
   .float 100, .float 110, .float 90, .float 105, .int 10, .int 2, true, "live"⟩

/-- Witness for the session-edge theorem: the pre-open-but-in-session candle
is not rejected by the market-hours rule. -/
theorem validate_candle_session_edge_witness :
    timeOfDay c8candle.open_time < MARKET_START ∧
      validate_candle c8candle (istAt 17008 50000000000) ≠
        .ok (false, some "MARKET_HOURS_VIOLATION") := by
  have h := validate_candle_session_edge c8candle (istAt 17008 50000000000)
    900000000 330 330 rfl rfl rfl rfl rfl (by decide) (by decide) (by decide)
    (by decide) (by decide)
  exact ⟨by decide, h.2 (by decide) (by decide) (by decide)⟩

/-- A strictly positive numeric-value hypothesis (the filler 0 on
`nan`/`inf` makes it unsatisfiable there) forces a number finite, and
Python's IEEE `<=`-against-zero check is then false on it. -/
theorem PyNum.le_zero_eq_false (p : PyNum) (h : ¬ (p.toRat ≤ 0)) :
    p.le (.int 0) = false := by
  cases p with
  | int n => simp_all [PyNum.le, PyNum.toRat]
  | float q => simp_all [PyNum.le, PyNum.toRat]
  | nan => rfl
  | inf ng => exact absurd (by simp [PyNum.toRat]) h

/-- On operands with strictly positive numeric value (hence finite),
Python's IEEE `<` agrees with the rational comparison. -/
theorem PyNum.lt_eq_of_pos (a b : PyNum) (ha : ¬ (a.toRat ≤ 0)) (hb : ¬ (b.toRat ≤ 0)) :
    a.lt b = decide (a.toRat < b.toRat) := by
  cases a with
  | int n =>
    cases b with
    | int m => rfl
    | float q => rfl
    | nan => exact absurd (by simp [PyNum.toRat]) hb
    | inf ng => exact absurd (by simp [PyNum.toRat]) hb
  | float p =>
    cases b with
    | int m => rfl
    | float q => rfl
    | nan => exact absurd (by simp [PyNum.toRat]) hb
    | inf ng => exact absurd (by simp [PyNum.toRat]) hb
  | nan => exact absurd (by simp [PyNum.toRat]) ha
  | inf ng => exact absurd (by simp [PyNum.toRat]) ha

/-- A volume satisfying the minimum-volume hypothesis is finite (the
filler 0 on `nan`/`inf` violates it), so `int(candle.volume)` succeeds and
returns the truncation. -/
theorem PyNum.pyInt_eq_ok_of_min (p : PyNum) (h : ¬ (p.trunc < MIN_VOLUME)) :
    p.pyInt = .ok p.trunc := by
  cases p with
  | int n => rfl
  | float q => rfl
  | nan => exact absurd (by norm_num [PyNum.trunc, MIN_VOLUME]) h
  | inf ng => exact absurd (by norm_num [PyNum.trunc, MIN_VOLUME]) h

/-- C7 (amended): the trade-count policy of `validate_candle`, for a candle
that reaches the trade-count checks (all earlier checks pass): a
non-integer trade count is rejected; a `live` candle with trade count below
the minimum of 1 — zero or negative — is rejected; a `live` candle with an
integer trade count of at least 1 passes; and a `historical` candle passes
for every integer trade count, negative values included (the claimed
rejection of all negative trade counts does not hold for historical mode). -/
theorem validate_candle_trade_count_policy (c : Candle) (now : PyDatetime) (d zo zc : ℤ)
    (h1 : c.is_closed = true)
    (hA : ALLOWED_TIMEFRAMES c.timeframe = some d)
    (hoc : c.open_time.tz = some zo) (hcc : c.close_time.tz = some zc)
    (hnow : now.tz = some istOffset)
    (hepo : ¬ (pyKey c.open_time < pyKey EPOCH_CUTOFF))
    (hepc : ¬ (pyKey c.close_time < pyKey EPOCH_CUTOFF))
    (hfut : ¬ (pyKey (pyAddDelta now (FUTURE_TIME_TOLERANCE_SECONDS * 1000000)) <
      pyKey c.open_time))
    (hrange : pyKey c.open_time < pyKey c.close_time)
    (hdur : pyKey c.close_time - pyKey c.open_time = d)
    (hmkt1 : ¬ (MARKET_END < timeOfDay c.close_time))
    (hmkt2 : ¬ (timeOfDay c.open_time < MARKET_START ∧
      timeOfDay c.close_time ≤ MARKET_START))
    (hp1 : ¬ (c.open_price.toRat ≤ 0)) (hp2 : ¬ (c.high_price.toRat ≤ 0))
    (hp3 : ¬ (c.low_price.toRat ≤ 0)) (hp4 : ¬ (c.close_price.toRat ≤ 0))
    (ho1 : ¬ (c.high_price.toRat < c.low_price.toRat))
    (ho2 : ¬ (c.high_price.toRat < c.open_price.toRat))
    (ho3 : ¬ (c.high_price.toRat < c.close_price.toRat))
    (ho4 : ¬ (c.low_price.toRat > c.open_price.toRat))
    (ho5 : ¬ (c.low_price.toRat > c.close_price.toRat))
    (hv1 : c.volume.toRat = (c.volume.trunc : ℚ))
    (hv2 : ¬ (c.volume.trunc < MIN_VOLUME)) :
    (c.number_of_trades.isInt = false →
        validate_candle c now = .ok (false, some "NO_OF_TRADES_NOT_INTEGER")) ∧
      (c.mode = "live" → c.number_of_trades.isInt = true →
        c.number_of_trades.toRat < 1 →
        validate_candle c now = .ok (false, some "NO_OF_TRADES_ZERO or BELOW MINIMUM")) ∧
      (c.mode = "live" → c.number_of_trades.isInt = true →
        1 ≤ c.number_of_trades.toRat →
        validate_candle c now = .ok (true, none)) ∧
      (c.mode = "historical" → c.number_of_trades.isInt = true →
        validate_candle c now = .ok (true, none)) := by
  simp only [validate_candle, pyLt, pyGt, pyGe, pySub, hoc, hcc, hA, hnow, EPOCH_CUTOFF_tz,
    pyAddDelta_tz, PyNum.pyInt_eq_ok_of_min c.volume hv2, except_ok_bind, except_pure_eq,
    decide_eq_true_eq, Bool.not_eq_true']
  rw [if_neg (by simp [h1]), if_neg (by simp), if_neg hepo, if_neg hepc, if_neg hfut,
    if_neg (by omega), if_neg (fun hh => hh hdur), if_neg hmkt1, if_neg hmkt2,
    if_neg (by simp [PyNum.le_zero_eq_false _ hp1]),
    if_neg (by simp [PyNum.le_zero_eq_false _ hp2]),
    if_neg (by simp [PyNum.le_zero_eq_false _ hp3]),
    if_neg (by simp [PyNum.le_zero_eq_false _ hp4]),
    if_neg (by rw [PyNum.lt_eq_of_pos _ _ hp2 hp3]; simpa using ho1),
    if_neg (by rw [PyNum.lt_eq_of_pos _ _ hp2 hp1]; simpa using ho2),
    if_neg (by rw [PyNum.lt_eq_of_pos _ _ hp2 hp4]; simpa using ho3),
    if_neg (by simp only [PyNum.gt]; rw [PyNum.lt_eq_of_pos _ _ hp1 hp3]; simpa using ho4),
    if_neg (by simp only [PyNum.gt]; rw [PyNum.lt_eq_of_pos _ _ hp4 hp3]; simpa using ho5),
    if_neg (fun hh => hh hv1), if_neg hv2]
  refine ⟨?_, ?_, ?_, ?_⟩
  · intro ht
    rw [if_pos ht]
  · intro hm ht hlt
    rw [if_neg (by simp [ht]), if_pos hm,
      if_pos (Or.inr (by norm_num [MIN_N0_OF_TRADES]; exact hlt))]
  · intro hm ht hge
    rw [if_neg (by simp [ht]), if_pos hm,
      if_neg (by norm_num [MIN_N0_OF_TRADES]; constructor <;> linarith)]
  · intro hm ht
    rw [if_neg (by simp [ht]), if_neg (by rw [hm]; decide)]

/-- A live candle [10:00, 10:15) IST on day 17011 with zero trade count and
otherwise valid fields. -/
def c7wcandle : Candle :=
  ⟨"V", "FIFTEEN_MINUTE", istAt 17011 36000000000, istAt 17011 36900000000,
   .float 100, .float 110, .float 90, .float 105, .int 10, .int 0, true, "live"⟩

/-- Witness for the trade-count policy: the zero-trade live candle is
rejected with the trade-count reason. -/
theorem validate_candle_trade_count_policy_witness :
    validate_candle c7wcandle (istAt 17011 50000000000) =
      .ok (false, some "NO_OF_TRADES_ZERO or BELOW MINIMUM") := by
  have h := validate_candle_trade_count_policy c7wcandle (istAt 17011 50000000000)
    900000000 330 330 rfl rfl rfl rfl rfl (by decide) (by decide) (by decide) (by decide)
    (by decide) (by decide) (by decide) (by decide) (by decide) (by decide) (by decide)
    (by decide) (by decide) (by decide) (by decide) (by decide) (by decide) (by decide)
  exact h.2.1 rfl rfl (by decide)

/-- historical.py: `INTERVAL_MAX_DAYS` (membership and max-days values). -/
def INTERVAL_MAX_DAYS : String → Option ℤ
  | "ONE_MINUTE" => some 30
  | "THREE_MINUTE" => some 60
  | "FIVE_MINUTE" => some 100
  | "TEN_MINUTE" => some 100
  | "FIFTEEN_MINUTE" => some 200
  | "THIRTY_MINUTE" => some 200
  | "ONE_HOUR" => some 400
  | "ONE_DAY" => some 2000
  | _ => none

/-- historical.py `_infer_end_time`: `minutes_map`; `none` models a
`KeyError` (caught by the caller's `try`). -/
def minutes_map : String → Option ℤ
  | "ONE_MINUTE" => some 1
  | "THREE_MINUTE" => some 3
  | "FIVE_MINUTE" => some 5
  | "TEN_MINUTE" => some 10
  | "FIFTEEN_MINUTE" => some 15
  | "THIRTY_MINUTE" => some 30
  | "ONE_HOUR" => some 60
  | "ONE_DAY" => some 1440
  | _ => none

/-- A successfully unpacked and parsed raw broker row
`ts, open, high, low, close, volume` (rows whose unpacking or parsing
raises are skipped by the source's `except` and simply do not appear). -/
structure RawRow where
  ts : PyDatetime
  open_p : PyNum
  high_p : PyNum
  low_p : PyNum
  close_p : PyNum
  volume : PyNum
  deriving DecidableEq, Repr

/-- historical.py lines 188-228: the loop body of `_convert_and_validate`
for one row — convert the timestamp to IST, infer the end time, build a
closed `mode="historical"` candle with `number_of_trades=0`, validate, and
keep it only when valid; `none` covers the rejected and the
exception-caught-and-skipped outcomes. -/
def convert_row (symbol interval : String) (ist_now : PyDatetime) (row : RawRow) :
    Option Candle :=
  let open_time := pyAstimezone row.ts istOffset
  match minutes_map interval with
  | none => none
  | some minutes =>
    let end_time := pyAddDelta open_time (minutes * 60000000)
    let candle : Candle :=
      ⟨symbol, interval, open_time, end_time, row.open_p, row.high_p, row.low_p,
       row.close_p, row.volume, .int 0, true, "historical"⟩
    match validate_candle candle ist_now with
    | .ok (true, _) => some candle
    | .ok (false, _) => none
    | .error _ => none

/-- historical.py lines 177-236: `_convert_and_validate` over a chunk. -/
def convert_and_validate (raw_data : List RawRow) (symbol interval : String)
    (ist_now : PyDatetime) : List Candle :=
  raw_data.filterMap (convert_row symbol interval ist_now)

/-- The ascending-open-time order used by
`all_candles.sort(key=lambda c: c.open_time)`; all open times are aware
(`astimezone` output), so Python's datetime order is the key order. -/
def openLe (x y : Candle) : Prop :=
  pyKey x.open_time ≤ pyKey y.open_time

/-- Python's `list.sort` modelled as insertion into a sorted list (the
model needs only that the result is ascending and has the same members;
stability details of Timsort are irrelevant to the claims). -/
def insort (c : Candle) : List Candle → List Candle
  | [] => [c]
  | d :: ds =>
    if pyKey c.open_time ≤ pyKey d.open_time then c :: d :: ds else d :: insort c ds

/-- Sorting by ascending open time. -/
def sort_by_open_time : List Candle → List Candle
  | [] => []
  | c :: cs => insort c (sort_by_open_time cs)

/-- historical.py lines 68-128: `fetch_candles`.  The network is
abstracted: `chunks` lists the `_fetch_chunk` results for the successive
sub-ranges produced by `_chunk_date_range` (a failed or empty response
contributes `[]`); the `all_candles.extend` loop is their concatenation,
followed by the final in-place sort.  An unsupported interval raises
`ValueError` before any fetch. -/
def fetch_candles (interval symbol : String) (chunks : List (List RawRow))
    (ist_now : PyDatetime) : Except PyErr (List Candle) :=
  if (INTERVAL_MAX_DAYS interval).isNone then .error .valueError
  else
    .ok (sort_by_open_time
      (List.flatten (chunks.map (fun raw_data =>
        convert_and_validate raw_data symbol interval ist_now))))

/-- Membership in an insertion. -/
theorem mem_insort (a c : Candle) (l : List Candle) :
    a ∈ insort c l ↔ a = c ∨ a ∈ l := by
  induction l with
  | nil => simp [insort]
  | cons d ds ih =>
    unfold insort
    split
    · simp
    · simp [ih]
      tauto

/-- Sorting preserves membership. -/
theorem mem_sort_by_open_time (a : Candle) (l : List Candle) :
    a ∈ sort_by_open_time l ↔ a ∈ l := by
  induction l with
  | nil => simp [sort_by_open_time]
  | cons c cs ih => simp [sort_by_open_time, mem_insort, ih]

/-- Insertion into an ascending list stays ascending. -/
theorem sorted_insort (c : Candle) (l : List Candle) (h : l.Sorted openLe) :
    (insort c l).Sorted openLe := by
  induction l with
  | nil => simp [insort, openLe]
  | cons d ds ih =>
    rw [List.sorted_cons] at h
    obtain ⟨hd, hds⟩ := h
    unfold insort
    split
    · next hle =>
      refine List.sorted_cons.mpr ⟨?_, List.sorted_cons.mpr ⟨hd, hds⟩⟩
      intro b hb
      rcases List.mem_cons.mp hb with hb | hb
      · subst hb; exact hle
      · exact le_trans hle (hd b hb)
    · next hgt =>
      refine List.sorted_cons.mpr ⟨?_, ih hds⟩
      intro b hb
      rcases (mem_insort b c ds).mp hb with hb | hb
      · subst hb; unfold openLe; omega
      · exact hd b hb
/-- The sort output is ascending. -/
theorem sorted_sort_by_open_time (l : List Candle) :
    (sort_by_open_time l).Sorted openLe := by
  induction l with
  | nil => simp [sort_by_open_time]
  | cons c cs ih => exact sorted_insort c _ ih

/-- C9: for every supported interval and every sequence of chunk responses
(overlapping, out of order, or arbitrary), `fetch_candles` returns a list
in which every candle passed `validate_candle` and which is sorted
ascending by `open_time`. -/
theorem fetch_candles_validated_sorted (interval symbol : String)
    (chunks : List (List RawRow)) (ist_now : PyDatetime)
    (hsup : INTERVAL_MAX_DAYS interval ≠ none) :
    ∃ l, fetch_candles interval symbol chunks ist_now = .ok l ∧
      (∀ c ∈ l, ∃ reason, validate_candle c ist_now = .ok (true, reason)) ∧
      l.Sorted openLe := by
  refine ⟨sort_by_open_time (List.flatten (chunks.map (fun raw_data =>
      convert_and_validate raw_data symbol interval ist_now))), ?_, ?_,
    sorted_sort_by_open_time _⟩
  · unfold fetch_candles
    rw [if_neg (by simpa [Option.isNone_iff_eq_none] using hsup)]
  · intro c hc
    rw [mem_sort_by_open_time] at hc
    obtain ⟨s, hs, hcs⟩ := List.mem_flatten.mp hc
    obtain ⟨raw, _, rfl⟩ := List.mem_map.mp hs
    obtain ⟨row, _, hrow⟩ := List.mem_filterMap.mp hcs
    unfold convert_row at hrow
    split at hrow
    · cases hrow
    · dsimp only at hrow
      split at hrow
      · next r heq =>
        cases hrow
        exact ⟨r, by rw [heq]⟩
      · cases hrow
      · cases hrow

/-- Two valid one-minute rows on day 17009, deliberately out of time order
(10:00 before 09:30) inside one chunk. -/
def c9chunks : List (List RawRow) :=
  [[⟨istAt 17009 36000000000, .float 100, .float 110, .float 90, .float 105, .int 10⟩,
    ⟨istAt 17009 34200000000, .float 101, .float 111, .float 91, .float 106, .int 11⟩]]

/-- Witness for the historical fetch theorem at the concrete out-of-order
chunk. -/
theorem fetch_candles_validated_sorted_witness :
    INTERVAL_MAX_DAYS "ONE_MINUTE" ≠ none ∧
      ∃ l, fetch_candles "ONE_MINUTE" "RELIANCE" c9chunks (istAt 17009 50000000000) = .ok l ∧
        (∀ c ∈ l, ∃ reason,
          validate_candle c (istAt 17009 50000000000) = .ok (true, reason)) ∧
        l.Sorted openLe :=
  ⟨by decide, fetch_candles_validated_sorted "ONE_MINUTE" "RELIANCE" c9chunks
    (istAt 17009 50000000000) (by decide)⟩
